import Mathlib

/-!
Verification of the task-node core of `core/src/impl/Kokkos_TaskNode.hpp`.

The C++ classes `PoolAllocatedObjectBase`, `ReferenceCountedBase`, `TaskNode`,
`AggregateTask`, `RunnableTaskBase` and `RunnableTask` are embedded as Lean
structures with explicit state passing.  A `KOKKOS_ASSERT` / `KOKKOS_EXPECTS`
failure is fatal in a debug build, so operations guarded by an assertion are
modelled as `Option`-returning functions where `none` is the assertion path.
Pointers are modelled as `Option Nat` identities.  `int32_t` / `int16_t`
fields are modelled as `Int`, with two's-complement wrap-around made explicit
where an atomic update could overflow.
-/

/-- Two's-complement wrap-around of an `Int` to the `int32_t` range,
matching the behaviour of `Kokkos::atomic_fetch_add` on an `int32_t`. -/
def wrap32 (x : Int) : Int := (x + 2 ^ 31) % 2 ^ 32 - 2 ^ 31

/-- The C++ `PoolAllocatedObjectBase<int32_t>`: tags an object with the allocation
size fixed at construction (field `m_alloc_size`). -/
structure PoolAllocatedObjectBase where
  m_alloc_size : Int
  deriving DecidableEq

/-- The C++ `PoolAllocatedObjectBase::get_allocation_size`. -/
def PoolAllocatedObjectBase.get_allocation_size (s : PoolAllocatedObjectBase) : Int :=
  s.m_alloc_size

/-- The C++ `ReferenceCountedBase<int32_t>`: an atomically mutated reference count. -/
structure ReferenceCountedBase where
  m_ref_count : Int
  deriving DecidableEq

/-- The `ReferenceCountedBase(initial_reference_count)` constructor (the
`KOKKOS_EXPECTS(initial_reference_count > 0)` in the source is commented out,
so no precondition is checked). -/
def ReferenceCountedBase.mk' (initial_reference_count : Int) : ReferenceCountedBase :=
  { m_ref_count := initial_reference_count }

/-- The C++ `ReferenceCountedBase::decrement_and_check_reference_count`:
`atomic_fetch_add(&m_ref_count, -1)` returning the old value, then
`KOKKOS_ASSERT(old_count > 0)` (modelled as `none` on failure), then
`return old_count == 1`. -/
def ReferenceCountedBase.decrement_and_check_reference_count
    (s : ReferenceCountedBase) : Option (Bool × ReferenceCountedBase) :=
  let old_count := s.m_ref_count
  let s' : ReferenceCountedBase := { m_ref_count := wrap32 (old_count - 1) }
  if old_count > 0 then some (old_count == 1, s') else none

/-- The C++ `ReferenceCountedBase::increment_reference_count`:
`Kokkos::atomic_increment(&m_ref_count)`. -/
def ReferenceCountedBase.increment_reference_count
    (s : ReferenceCountedBase) : ReferenceCountedBase :=
  { m_ref_count := wrap32 (s.m_ref_count + 1) }

/-- The C++ `enum TaskType : int16_t { TaskTeam = 0, TaskSingle = 1, Aggregate = 2 }`. -/
inductive TaskType where
  | TaskTeam
  | TaskSingle
  | Aggregate
  deriving DecidableEq

/-- The `int16_t` value of each `TaskType` enumerator. -/
def TaskType.toInt : TaskType → Int
  | .TaskTeam => 0
  | .TaskSingle => 1
  | .Aggregate => 2

/-- Modelled from the spec: `TaskPriority` (declared in `Kokkos_Concepts.hpp`,
which is not part of this tree) is "one of {High, Regular, Low}". -/
inductive TaskPriority where
  | High
  | Regular
  | Low
  deriving DecidableEq

/-- The integer value of each `TaskPriority` enumerator, used by the
`static_cast<priority_type>(priority)` store in the `TaskNode` constructor
and in `set_priority`. -/
def TaskPriority.toInt : TaskPriority → Int
  | .High => 0
  | .Regular => 1
  | .Low => 2

/-- The `(TaskPriority)m_priority` cast used by `get_priority`; it is the
identity round-trip on the values `0`, `1`, `2` that are ever stored. -/
def TaskPriority.ofInt (x : Int) : TaskPriority :=
  if x = 0 then .High else if x = 1 then .Regular else .Low

/-- Modelled from the spec: the `waiting_queue_type` supplied by
`TaskQueueTraits` (implemented in `Kokkos_LIFO.hpp`, which is not part of this
tree).  Per spec §4.2 it is a linked stack with a consumed ("poison") state:
`try_push` links in front of the head and fails once consumed; `consume`
captures the chain, marks the queue consumed, and visits every captured
waiter exactly once; `is_consumed` observes the state.  Waiters are task
identities (`Nat`). -/
structure WaitQueue where
  waiters : List Nat
  consumed : Bool
  deriving DecidableEq

/-- Modelled from the spec: `try_push(node)` succeeds (linking the node in
front of the head) unless the queue is consumed, in which case it fails. -/
def WaitQueue.try_push (q : WaitQueue) (x : Nat) : Bool × WaitQueue :=
  if q.consumed then (false, q)
  else (true, { q with waiters := x :: q.waiters })

/-- Modelled from the spec: `consume(visit_fn)` captures the chain, marks the
queue consumed, and visits each captured waiter once; the returned list is
the visitation order. -/
def WaitQueue.consume (q : WaitQueue) : List Nat × WaitQueue :=
  (q.waiters, { waiters := [], consumed := true })

/-- Modelled from the spec: `is_consumed()`. -/
def WaitQueue.is_consumed (q : WaitQueue) : Bool := q.consumed

/-- The C++ `TaskNode<TaskQueueTraits>`: composes the pool-allocation base, the
reference-count base, the queue-traits intrusive base (represented by the
`m_is_enqueued` observation it provides), the wait queue, the owning ready
queue pointer (`Option Nat` identity), the task type and the priority. -/
structure TaskNode where
  pool_base : PoolAllocatedObjectBase
  ref_base : ReferenceCountedBase
  m_wait_queue : WaitQueue
  m_ready_queue_base : Option Nat
  m_task_type : TaskType
  m_priority : Int
  /-- Modelled from the spec: the queue-traits intrusive base
  (`intrusive_task_base_type`, not part of this tree) reports through
  `is_enqueued()` whether the node is currently in a ready queue; a freshly
  constructed node is not enqueued. -/
  m_is_enqueued : Bool
  deriving DecidableEq

/-- The `TaskNode(task_type, priority, queue_base, initial_reference_count,
allocation_size)` constructor. -/
def TaskNode.mk' (task_type : TaskType) (priority : TaskPriority)
    (queue_base : Option Nat) (initial_reference_count : Int)
    (allocation_size : Int) : TaskNode :=
  { pool_base := { m_alloc_size := allocation_size }
    ref_base := ReferenceCountedBase.mk' initial_reference_count
    m_wait_queue := { waiters := [], consumed := false }
    m_ready_queue_base := queue_base
    m_task_type := task_type
    m_priority := priority.toInt
    m_is_enqueued := false }

/-- The C++ `TaskNode::is_aggregate`: `m_task_type == TaskType::Aggregate`. -/
def TaskNode.is_aggregate (n : TaskNode) : Bool :=
  n.m_task_type == TaskType.Aggregate

/-- The C++ `TaskNode::is_runnable`: `m_task_type != TaskType::Aggregate`. -/
def TaskNode.is_runnable (n : TaskNode) : Bool :=
  n.m_task_type != TaskType.Aggregate

/-- The C++ `TaskNode::is_single_runnable`: `m_task_type == TaskType::TaskSingle`. -/
def TaskNode.is_single_runnable (n : TaskNode) : Bool :=
  n.m_task_type == TaskType.TaskSingle

/-- The C++ `TaskNode::is_team_runnable`: `m_task_type == TaskType::TaskTeam`. -/
def TaskNode.is_team_runnable (n : TaskNode) : Bool :=
  n.m_task_type == TaskType.TaskTeam

/-- The C++ `TaskNode::get_task_type`. -/
def TaskNode.get_task_type (n : TaskNode) : TaskType := n.m_task_type

/-- The C++ `TaskNode::as_runnable_task`: `KOKKOS_EXPECTS(this->is_runnable())`
(assertion modelled as `none`), then the static downcast, which yields the
same object viewed as a `RunnableTaskBase`. -/
def TaskNode.as_runnable_task (n : TaskNode) : Option TaskNode :=
  if n.is_runnable then some n else none

/-- The C++ `TaskNode::as_aggregate`: `KOKKOS_EXPECTS(this->is_aggregate())`
(assertion modelled as `none`), then the static downcast, which yields the
same object viewed as an `AggregateTask`. -/
def TaskNode.as_aggregate (n : TaskNode) : Option TaskNode :=
  if n.is_aggregate then some n else none

/-- The C++ `TaskNode::try_add_waiting(depends_on_this)`:
`return m_wait_queue.try_push(depends_on_this)`. -/
def TaskNode.try_add_waiting (n : TaskNode) (depends_on_this : Nat) :
    Bool × TaskNode :=
  let (ok, q') := n.m_wait_queue.try_push depends_on_this
  (ok, { n with m_wait_queue := q' })

/-- The C++ `TaskNode::consume_wait_queue(f)`:
`KOKKOS_EXPECTS(not m_wait_queue.is_consumed())` (assertion modelled as
`none`), then `m_wait_queue.consume(f)`; the returned list is the sequence of
waiters passed to the visit function. -/
def TaskNode.consume_wait_queue (n : TaskNode) : Option (List Nat × TaskNode) :=
  if n.m_wait_queue.is_consumed then none
  else
    let (visited, q') := n.m_wait_queue.consume
    some (visited, { n with m_wait_queue := q' })

/-- The C++ `TaskNode::wait_queue_is_consumed`. -/
def TaskNode.wait_queue_is_consumed (n : TaskNode) : Bool :=
  n.m_wait_queue.is_consumed

/-- The C++ `TaskNode::ready_queue_base_ptr`. -/
def TaskNode.ready_queue_base_ptr (n : TaskNode) : Option Nat :=
  n.m_ready_queue_base

/-- Modelled from the spec: the queue-traits intrusive base's `is_enqueued()`
observation, used as the precondition of `set_priority`. -/
def TaskNode.is_enqueued (n : TaskNode) : Bool := n.m_is_enqueued

/-- The C++ `TaskNode::set_priority(priority)`:
`KOKKOS_EXPECTS(!this->is_enqueued())` (assertion modelled as `none`), then
`m_priority = (priority_type)priority`. -/
def TaskNode.set_priority (n : TaskNode) (priority : TaskPriority) :
    Option TaskNode :=
  if n.is_enqueued then none
  else some { n with m_priority := priority.toInt }

/-- The C++ `TaskNode::get_priority`: `return (TaskPriority)m_priority`. -/
def TaskNode.get_priority (n : TaskNode) : TaskPriority :=
  TaskPriority.ofInt n.m_priority

/-- The C++ `TaskNode::increment_reference_count` (inherited from
`ReferenceCountedBase`). -/
def TaskNode.increment_reference_count (n : TaskNode) : TaskNode :=
  { n with ref_base := n.ref_base.increment_reference_count }

/-- The C++ `TaskNode::decrement_and_check_reference_count` (inherited from
`ReferenceCountedBase`). -/
def TaskNode.decrement_and_check_reference_count (n : TaskNode) :
    Option (Bool × TaskNode) :=
  match n.ref_base.decrement_and_check_reference_count with
  | some (b, r') => some (b, { n with ref_base := r' })
  | none => none

/-- The set of state-mutating member operations available on a `TaskNode`
after construction, used to state kind/field immutability over arbitrary
operation sequences.  `setEnqueued` stands for the queue-traits intrusive
base marking the node as (de)enqueued. -/
inductive TaskNodeOp where
  | incRef
  | decRef
  | tryAddWaiting (w : Nat)
  | consumeWait
  | setPriority (p : TaskPriority)
  | setEnqueued (b : Bool)
  deriving DecidableEq

/-- One post-construction operation on a `TaskNode`; `none` is the fatal
assertion path of the underlying member function. -/
def TaskNode.step (n : TaskNode) (op : TaskNodeOp) : Option TaskNode :=
  match op with
  | .incRef => some n.increment_reference_count
  | .decRef =>
    match n.decrement_and_check_reference_count with
    | some (_, n') => some n'
    | none => none
  | .tryAddWaiting w => some (n.try_add_waiting w).2
  | .consumeWait =>
    match n.consume_wait_queue with
    | some (_, n') => some n'
    | none => none
  | .setPriority p => n.set_priority p
  | .setEnqueued b => some { n with m_is_enqueued := b }

/-- A sequence of post-construction operations on a `TaskNode`, stopping at
the first fatal assertion. -/
def TaskNode.steps : TaskNode → List TaskNodeOp → Option TaskNode
  | n, [] => some n
  | n, op :: ops =>
    match n.step op with
    | some n' => n'.steps ops
    | none => none

/-- Pushing a list of waiters one by one through
`TaskNode::try_add_waiting`, collecting each boolean outcome. -/
def TaskNode.add_all_waiting : TaskNode → List Nat → List Bool × TaskNode
  | n, [] => ([], n)
  | n, w :: ws =>
    let (b, n') := n.try_add_waiting w
    let (bs, n'') := n'.add_all_waiting ws
    (b :: bs, n'')

/-- The C++ `AggregateTask<TaskQueueTraits, SchedulingInfo>`: a `TaskNode` (through
`SchedulingInfoStorage`, which adds no state of its own when the scheduling
info is empty) together with the VLA-emulation base. -/
structure AggregateTask where
  base : TaskNode
  /-- Modelled from the spec: `ObjectWithVLAEmulation` (not part of this
  tree) records the number of inline predecessor slots fixed at
  construction; `n_vla_entries()` reads it back. -/
  n_vla_entries : Int
  deriving DecidableEq

/-- The `AggregateTask(aggregate_predecessor_count, args...)` constructor:
forwards `TaskType::Aggregate` and `TaskPriority::Regular` (hard-coded) plus
the remaining arguments to the `TaskNode` base, and sizes the VLA base with
`aggregate_predecessor_count`. -/
def AggregateTask.mk' (aggregate_predecessor_count : Int)
    (queue_base : Option Nat) (initial_reference_count : Int)
    (allocation_size : Int) : AggregateTask :=
  { base := TaskNode.mk' TaskType.Aggregate TaskPriority.Regular
      queue_base initial_reference_count allocation_size
    n_vla_entries := aggregate_predecessor_count }

/-- The C++ `AggregateTask::dependence_count`: `return this->n_vla_entries()`. -/
def AggregateTask.dependence_count (a : AggregateTask) : Int :=
  a.n_vla_entries

/-- A post-construction `TaskNode` operation applied to an
`AggregateTask` through its base subobject. -/
def AggregateTask.step (a : AggregateTask) (op : TaskNodeOp) :
    Option AggregateTask :=
  match a.base.step op with
  | some b => some { a with base := b }
  | none => none

/-- A sequence of post-construction operations on an `AggregateTask`. -/
def AggregateTask.steps : AggregateTask → List TaskNodeOp → Option AggregateTask
  | a, [] => some a
  | a, op :: ops =>
    match a.step op with
    | some a' => a'.steps ops
    | none => none

/-- The C++ `RunnableTaskBase<TaskQueueTraits>`: a `TaskNode` plus the type-erased
apply entry point (`m_apply`, a function-pointer identity), the single
predecessor link (`m_predecessor`, a pointer modelled as `Option Nat`), and
the respawn flag. -/
structure RunnableTaskBase where
  base : TaskNode
  m_apply : Nat
  m_predecessor : Option Nat
  m_is_respawning : Bool
  deriving DecidableEq

/-- The `RunnableTaskBase(apply_function_ptr, args...)` constructor: the
base is constructed from the forwarded arguments and `m_apply` is stored;
`m_predecessor` and `m_is_respawning` keep their member initializers
(`nullptr` and `false`). -/
def RunnableTaskBase.mk' (apply_function_ptr : Nat) (base : TaskNode) :
    RunnableTaskBase :=
  { base := base
    m_apply := apply_function_ptr
    m_predecessor := none
    m_is_respawning := false }

/-- The C++ `RunnableTaskBase::get_respawn_flag`. -/
def RunnableTaskBase.get_respawn_flag (t : RunnableTaskBase) : Bool :=
  t.m_is_respawning

/-- The C++ `RunnableTaskBase::set_respawn_flag(value)`. -/
def RunnableTaskBase.set_respawn_flag (t : RunnableTaskBase) (value : Bool) :
    RunnableTaskBase :=
  { t with m_is_respawning := value }

/-- The C++ `RunnableTaskBase::set_respawn_flag()` with the C++ default argument
`value = true`. -/
def RunnableTaskBase.set_respawn_flag0 (t : RunnableTaskBase) :
    RunnableTaskBase :=
  t.set_respawn_flag true

/-- The C++ `RunnableTaskBase::has_predecessor`: `m_predecessor != nullptr`. -/
def RunnableTaskBase.has_predecessor (t : RunnableTaskBase) : Bool :=
  t.m_predecessor.isSome

/-- The C++ `RunnableTaskBase::clear_predecessor`: `m_predecessor = nullptr`
(nothing else is touched — in particular no reference count). -/
def RunnableTaskBase.clear_predecessor (t : RunnableTaskBase) :
    RunnableTaskBase :=
  { t with m_predecessor := none }

/-- The C++ `RunnableTaskBase::get_predecessor`:
`KOKKOS_EXPECTS(m_predecessor != nullptr)` (assertion modelled as `none`),
then `return *m_predecessor` (the pointed-to task's identity). -/
def RunnableTaskBase.get_predecessor (t : RunnableTaskBase) : Option Nat :=
  t.m_predecessor

/-- The C++ `RunnableTaskBase::set_predecessor(predecessor)`:
`KOKKOS_EXPECTS(m_predecessor == nullptr)` (assertion modelled as `none`),
then `predecessor.increment_reference_count()` and
`m_predecessor = &predecessor`.  The pointer is `pid`; the pointee state `p`
is threaded explicitly and returned updated. -/
def RunnableTaskBase.set_predecessor (t : RunnableTaskBase) (pid : Nat)
    (p : TaskNode) : Option (RunnableTaskBase × TaskNode) :=
  match t.m_predecessor with
  | some _ => none
  | none =>
    some ({ t with m_predecessor := some pid }, p.increment_reference_count)

/-- One member's post-barrier finalization test in `RunnableTask::apply`:
`only_one_thread && !(task->get_respawn_flag())`, where `only_one_thread` is
`0 == member->team_rank()`. -/
def RunnableTask.apply_finalize (member_rank : Nat) (task : RunnableTaskBase) :
    Bool :=
  (member_rank == 0) && !task.get_respawn_flag

/-- The C++ `RunnableTask::apply` executed by a whole team of `team_size` members of
ranks `0, …, team_size - 1`: every member runs `task->apply_functor`
(modelled as an arbitrary state transformer `functor`, which may set the
respawn flag), all members reach `member->team_barrier()`, and then each
member evaluates the finalization test against the post-barrier task state.
The result is the post-barrier task state together with the list of ranks
that destroy the payload functor. -/
def RunnableTask.apply_team (functor : Nat → RunnableTaskBase → RunnableTaskBase)
    (team_size : Nat) (task : RunnableTaskBase) :
    RunnableTaskBase × List Nat :=
  let task_after := (List.range team_size).foldl (fun t r => functor r t) task
  (task_after,
    (List.range team_size).filter (fun r => RunnableTask.apply_finalize r task_after))

/-! ### Helper lemmas -/

theorem TaskNode.decrement_eq (n : TaskNode) :
    n.decrement_and_check_reference_count =
      if 0 < n.ref_base.m_ref_count
      then some (n.ref_base.m_ref_count == 1,
        { n with ref_base := { m_ref_count := wrap32 (n.ref_base.m_ref_count - 1) } })
      else none := by
  simp only [TaskNode.decrement_and_check_reference_count,
    ReferenceCountedBase.decrement_and_check_reference_count]
  by_cases hc : 0 < n.ref_base.m_ref_count <;> simp [hc]

theorem TaskNode.step_incRef (n : TaskNode) :
    n.step TaskNodeOp.incRef =
      some { n with ref_base := { m_ref_count := wrap32 (n.ref_base.m_ref_count + 1) } } :=
  rfl

theorem TaskNode.step_decRef (n : TaskNode) :
    n.step TaskNodeOp.decRef =
      if 0 < n.ref_base.m_ref_count
      then some { n with ref_base := { m_ref_count := wrap32 (n.ref_base.m_ref_count - 1) } }
      else none := by
  simp only [TaskNode.step, TaskNode.decrement_eq]
  by_cases hc : 0 < n.ref_base.m_ref_count <;> simp [hc]

theorem TaskNode.step_tryAddWaiting (n : TaskNode) (w : Nat) :
    n.step (TaskNodeOp.tryAddWaiting w) =
      some (if n.m_wait_queue.consumed then n
        else { n with m_wait_queue :=
          { waiters := w :: n.m_wait_queue.waiters, consumed := false } }) := by
  simp only [TaskNode.step, TaskNode.try_add_waiting, WaitQueue.try_push]
  by_cases hc : n.m_wait_queue.consumed <;> simp [hc]

theorem TaskNode.step_consumeWait (n : TaskNode) :
    n.step TaskNodeOp.consumeWait =
      if n.m_wait_queue.consumed then none
      else some { n with m_wait_queue := { waiters := [], consumed := true } } := by
  simp only [TaskNode.step, TaskNode.consume_wait_queue, WaitQueue.is_consumed,
    WaitQueue.consume]
  by_cases hc : n.m_wait_queue.consumed <;> simp [hc]

theorem TaskNode.step_setPriority (n : TaskNode) (p : TaskPriority) :
    n.step (TaskNodeOp.setPriority p) =
      if n.m_is_enqueued then none else some { n with m_priority := p.toInt } := by
  simp only [TaskNode.step, TaskNode.set_priority, TaskNode.is_enqueued]

theorem TaskNode.step_setEnqueued (n : TaskNode) (b : Bool) :
    n.step (TaskNodeOp.setEnqueued b) = some { n with m_is_enqueued := b } :=
  rfl

theorem TaskNode.step_frame {n n' : TaskNode} {op : TaskNodeOp}
    (h : n.step op = some n') :
    n'.m_task_type = n.m_task_type ∧
    n'.pool_base = n.pool_base ∧
    ((∀ p, op ≠ TaskNodeOp.setPriority p) → n'.m_priority = n.m_priority) := by
  cases op with
  | incRef =>
    rw [TaskNode.step_incRef, Option.some.injEq] at h
    subst h; simp
  | decRef =>
    rw [TaskNode.step_decRef] at h
    split at h
    · rw [Option.some.injEq] at h; subst h; simp
    · cases h
  | tryAddWaiting w =>
    rw [TaskNode.step_tryAddWaiting, Option.some.injEq] at h
    split at h <;> (subst h; simp)
  | consumeWait =>
    rw [TaskNode.step_consumeWait] at h
    split at h
    · cases h
    · rw [Option.some.injEq] at h; subst h; simp
  | setPriority p =>
    rw [TaskNode.step_setPriority] at h
    split at h
    · cases h
    · rw [Option.some.injEq] at h; subst h
      exact ⟨rfl, rfl, fun hp => absurd rfl (hp p)⟩
  | setEnqueued b =>
    rw [TaskNode.step_setEnqueued, Option.some.injEq] at h
    subst h; simp

theorem TaskNode.steps_frame :
    ∀ (ops : List TaskNodeOp) (n n' : TaskNode),
      TaskNode.steps n ops = some n' →
      n'.m_task_type = n.m_task_type ∧
      n'.pool_base = n.pool_base ∧
      ((∀ p, TaskNodeOp.setPriority p ∉ ops) → n'.m_priority = n.m_priority)
  | [], n, n', h => by
    rw [TaskNode.steps, Option.some.injEq] at h
    subst h; simp
  | op :: ops, n, n', h => by
    rw [TaskNode.steps] at h
    rcases hs : n.step op with _ | m <;> rw [hs] at h
    · cases h
    · obtain ⟨h1, h2, h3⟩ := TaskNode.steps_frame ops m n' h
      obtain ⟨g1, g2, g3⟩ := TaskNode.step_frame hs
      refine ⟨h1.trans g1, h2.trans g2, fun hp => ?_⟩
      have hm : m.m_priority = n.m_priority := by
        apply g3
        intro p hop
        exact hp p (hop ▸ List.mem_cons_self op ops)
      exact (h3 (fun p hmem => hp p (List.mem_cons_of_mem op hmem))).trans hm

/-- C1: `decrement_and_check_reference_count()` returns `true` exactly when
the call takes the reference count from 1 to 0 (in particular, starting from
`initial_reference_count = 2` the first decrement reports `false` and the
second `true`), and it hits the fatal `KOKKOS_ASSERT` when invoked while the
count is already zero or negative. -/
theorem c1_decrement_and_check_reference_count (s : ReferenceCountedBase) :
    (0 < s.m_ref_count →
      ∃ b s', s.decrement_and_check_reference_count = some (b, s') ∧
        (b = true ↔ s.m_ref_count = 1 ∧ s'.m_ref_count = 0)) ∧
    (s.m_ref_count ≤ 0 → s.decrement_and_check_reference_count = none) ∧
    (ReferenceCountedBase.mk' 2).decrement_and_check_reference_count =
      some (false, ReferenceCountedBase.mk' 1) ∧
    (ReferenceCountedBase.mk' 1).decrement_and_check_reference_count =
      some (true, ReferenceCountedBase.mk' 0) := by
  refine ⟨fun h => ?_, fun h => ?_, by decide, by decide⟩
  · refine ⟨s.m_ref_count == 1, { m_ref_count := wrap32 (s.m_ref_count - 1) }, ?_, ?_⟩
    · simp [ReferenceCountedBase.decrement_and_check_reference_count, h]
    · constructor
      · intro hb
        have hc : s.m_ref_count = 1 := by simpa using hb
        refine ⟨hc, ?_⟩
        rw [hc]
        norm_num [wrap32]
      · rintro ⟨hc, -⟩
        simp [hc]
  · simp [ReferenceCountedBase.decrement_and_check_reference_count]
    omega

/-- Witness for C1 at the concrete count 2. -/
theorem c1_decrement_and_check_reference_count_witness :
    0 < (ReferenceCountedBase.mk' 2).m_ref_count ∧
    (∃ b s', (ReferenceCountedBase.mk' 2).decrement_and_check_reference_count =
        some (b, s') ∧
      (b = true ↔ (ReferenceCountedBase.mk' 2).m_ref_count = 1 ∧ s'.m_ref_count = 0)) :=
  ⟨by decide, (c1_decrement_and_check_reference_count (ReferenceCountedBase.mk' 2)).1
    (by decide)⟩

/-- C5: the checked downcasts `as_runnable_task()` / `as_aggregate()` succeed
(returning the same node under the requested view) exactly when `is_runnable()`
resp. `is_aggregate()` holds, and otherwise take the fatal-assertion path
instead of returning a value. -/
theorem c5_checked_downcasts (n : TaskNode) :
    (n.as_runnable_task = some n ↔ n.is_runnable = true) ∧
    (n.as_runnable_task = none ↔ n.is_runnable = false) ∧
    (n.as_aggregate = some n ↔ n.is_aggregate = true) ∧
    (n.as_aggregate = none ↔ n.is_aggregate = false) := by
  cases htt : n.m_task_type <;>
    simp [TaskNode.as_runnable_task, TaskNode.as_aggregate,
      TaskNode.is_runnable, TaskNode.is_aggregate, htt]

/-- C6: the task kind set at construction is unchanged by any sequence of
post-construction operations, and the classification queries are derived from
it: `is_aggregate()` iff the kind is `Aggregate`, `is_runnable()` iff it is
not `Aggregate` (so exactly one of the two holds), `is_single_runnable()` iff
`TaskSingle`, `is_team_runnable()` iff `TaskTeam`. -/
theorem c6_task_kind_immutable (n : TaskNode) (ops : List TaskNodeOp)
    (n' : TaskNode) (h : TaskNode.steps n ops = some n') :
    n'.m_task_type = n.m_task_type ∧
    (n.is_aggregate = true ↔ n.m_task_type = TaskType.Aggregate) ∧
    (n.is_runnable = true ↔ n.m_task_type ≠ TaskType.Aggregate) ∧
    n.is_runnable = !n.is_aggregate ∧
    (n.is_single_runnable = true ↔ n.m_task_type = TaskType.TaskSingle) ∧
    (n.is_team_runnable = true ↔ n.m_task_type = TaskType.TaskTeam) := by
  refine ⟨(TaskNode.steps_frame ops n n' h).1, ?_, ?_, ?_, ?_, ?_⟩ <;>
    cases htt : n.m_task_type <;>
      simp [TaskNode.is_aggregate, TaskNode.is_runnable,
        TaskNode.is_single_runnable, TaskNode.is_team_runnable, htt] <;>
      decide

/-- Witness for C6 on a concrete team task and operation sequence. -/
theorem c6_task_kind_immutable_witness :
    TaskNode.steps (TaskNode.mk' TaskType.TaskTeam TaskPriority.High none 2 64)
        [TaskNodeOp.setPriority TaskPriority.Low, TaskNodeOp.setEnqueued true] =
      some { TaskNode.mk' TaskType.TaskTeam TaskPriority.High none 2 64 with
        m_priority := TaskPriority.Low.toInt, m_is_enqueued := true } ∧
    ({ TaskNode.mk' TaskType.TaskTeam TaskPriority.High none 2 64 with
        m_priority := TaskPriority.Low.toInt,
        m_is_enqueued := true } : TaskNode).m_task_type =
      (TaskNode.mk' TaskType.TaskTeam TaskPriority.High none 2 64).m_task_type ∧
    ((TaskNode.mk' TaskType.TaskTeam TaskPriority.High none 2 64).is_aggregate = true ↔
      (TaskNode.mk' TaskType.TaskTeam TaskPriority.High none 2 64).m_task_type =
        TaskType.Aggregate) :=
  by
    have H := c6_task_kind_immutable
      (TaskNode.mk' TaskType.TaskTeam TaskPriority.High none 2 64)
      [TaskNodeOp.setPriority TaskPriority.Low, TaskNodeOp.setEnqueued true]
      { TaskNode.mk' TaskType.TaskTeam TaskPriority.High none 2 64 with
        m_priority := TaskPriority.Low.toInt, m_is_enqueued := true }
      (by decide)
    exact ⟨by decide, H.1, H.2.1⟩

/-- C8: `set_priority` asserts (fatally) that the node is not currently
enqueued in a ready queue; when it is not enqueued, the priority is stored
and `get_priority()` reads it back. -/
theorem c8_set_priority (n : TaskNode) (p : TaskPriority) :
    (n.is_enqueued = true → n.set_priority p = none) ∧
    (n.is_enqueued = false →
      ∃ n', n.set_priority p = some n' ∧ n'.get_priority = p ∧
        n' = { n with m_priority := p.toInt }) := by
  constructor
  · intro h
    simp [TaskNode.set_priority, h]
  · intro h
    refine ⟨{ n with m_priority := p.toInt }, ?_, ?_, rfl⟩
    · simp [TaskNode.set_priority, h]
    · cases p <;> rfl

/-- Witness for C8 on a concrete non-enqueued node. -/
theorem c8_set_priority_witness :
    (TaskNode.mk' TaskType.TaskSingle TaskPriority.Regular none 2 64).is_enqueued =
      false ∧
    ∃ n', (TaskNode.mk' TaskType.TaskSingle TaskPriority.Regular none 2 64).set_priority
        TaskPriority.Low = some n' ∧
      n'.get_priority = TaskPriority.Low ∧
      n' = { TaskNode.mk' TaskType.TaskSingle TaskPriority.Regular none 2 64 with
        m_priority := TaskPriority.Low.toInt } :=
  ⟨by decide,
   (c8_set_priority (TaskNode.mk' TaskType.TaskSingle TaskPriority.Regular none 2 64)
      TaskPriority.Low).2 (by decide)⟩

/-- C10: immediately after the `RunnableTaskBase` constructor the respawn
flag is `false` and no predecessor is set, and `set_respawn_flag()` with the
default argument sets the flag to `true`. -/
theorem c10_runnable_ctor (apply_function_ptr : Nat) (task_type : TaskType)
    (priority : TaskPriority) (queue_base : Option Nat)
    (initial_reference_count allocation_size : Int) :
    (RunnableTaskBase.mk' apply_function_ptr
        (TaskNode.mk' task_type priority queue_base initial_reference_count
          allocation_size)).get_respawn_flag = false ∧
    (RunnableTaskBase.mk' apply_function_ptr
        (TaskNode.mk' task_type priority queue_base initial_reference_count
          allocation_size)).has_predecessor = false ∧
    (∀ t : RunnableTaskBase, t.set_respawn_flag0.get_respawn_flag = true) := by
  refine ⟨rfl, rfl, fun t => rfl⟩

theorem TaskNode.add_all_waiting_open :
    ∀ (ws : List Nat) (n : TaskNode), n.m_wait_queue.consumed = false →
      n.add_all_waiting ws =
        (List.replicate ws.length true,
         { n with m_wait_queue :=
             { waiters := ws.reverse ++ n.m_wait_queue.waiters, consumed := false } })
  | [], n, h => by
    rcases n with ⟨pb, rb, ⟨qw, qc⟩, rq, tt, pr, en⟩
    have hc : qc = false := h
    subst hc
    simp [TaskNode.add_all_waiting]
  | w :: ws, n, h => by
    rcases n with ⟨pb, rb, ⟨qw, qc⟩, rq, tt, pr, en⟩
    have hc : qc = false := h
    subst hc
    rw [TaskNode.add_all_waiting]
    simp only [TaskNode.try_add_waiting, WaitQueue.try_push, Bool.false_eq_true,
      if_false]
    rw [TaskNode.add_all_waiting_open ws _ rfl]
    simp [List.reverse_cons, List.append_assoc, List.replicate_succ]

/-- C2: pushing waiters through `try_add_waiting` while the queue is open all
succeed; `consume_wait_queue` then visits every successfully added waiter
exactly once, afterwards `wait_queue_is_consumed()` holds, and every
subsequent `try_add_waiting` returns `false` as an ordinary boolean (leaving
the node unchanged) rather than asserting. -/
theorem c2_wait_queue_consume (n : TaskNode) (ws : List Nat)
    (h : n.wait_queue_is_consumed = false) :
    (n.add_all_waiting ws).1 = List.replicate ws.length true ∧
    ∃ visited n2,
      (n.add_all_waiting ws).2.consume_wait_queue = some (visited, n2) ∧
      (∀ x, visited.count x = ws.count x + n.m_wait_queue.waiters.count x) ∧
      n2.wait_queue_is_consumed = true ∧
      ∀ w, n2.try_add_waiting w = (false, n2) := by
  have hc : n.m_wait_queue.consumed = false := h
  rw [TaskNode.add_all_waiting_open ws n hc]
  refine ⟨rfl, ws.reverse ++ n.m_wait_queue.waiters,
    { n with m_wait_queue := { waiters := [], consumed := true } }, ?_, ?_, rfl, ?_⟩
  · simp [TaskNode.consume_wait_queue, WaitQueue.is_consumed, WaitQueue.consume]
  · intro x
    simp [List.count_append, List.count_reverse]
  · intro w
    rfl

/-- Witness for C2: the spec scenario — three waiters pushed while open, all
visited by the consume, and a later push refused. -/
theorem c2_wait_queue_consume_witness :
    (TaskNode.mk' TaskType.TaskSingle TaskPriority.Regular none 2
        64).wait_queue_is_consumed = false ∧
    (((TaskNode.mk' TaskType.TaskSingle TaskPriority.Regular none 2
        64).add_all_waiting [1, 2, 3]).1 =
      List.replicate ([1, 2, 3] : List Nat).length true ∧
    ∃ visited n2,
      ((TaskNode.mk' TaskType.TaskSingle TaskPriority.Regular none 2
          64).add_all_waiting [1, 2, 3]).2.consume_wait_queue =
        some (visited, n2) ∧
      (∀ x, visited.count x = ([1, 2, 3] : List Nat).count x +
        (TaskNode.mk' TaskType.TaskSingle TaskPriority.Regular none 2
          64).m_wait_queue.waiters.count x) ∧
      n2.wait_queue_is_consumed = true ∧
      ∀ w, n2.try_add_waiting w = (false, n2)) :=
  ⟨rfl, c2_wait_queue_consume
    (TaskNode.mk' TaskType.TaskSingle TaskPriority.Regular none 2 64)
    [1, 2, 3] rfl⟩

/-- C3: in `RunnableTask::apply`, a member destroys the payload functor iff
it is the rank-zero member and the respawn flag is clear after the barrier;
with the flag set no member finalizes, and no member of rank other than zero
ever does. -/
theorem c3_apply_finalization
    (functor : Nat → RunnableTaskBase → RunnableTaskBase)
    (team_size : Nat) (task : RunnableTaskBase) (r : Nat) :
    r ∈ (RunnableTask.apply_team functor team_size task).2 ↔
      r < team_size ∧ r = 0 ∧
      (RunnableTask.apply_team functor team_size task).1.get_respawn_flag =
        false := by
  simp [RunnableTask.apply_team, RunnableTask.apply_finalize, List.mem_filter,
    List.mem_range]

/-- C4: `set_predecessor(p)` asserts that no predecessor is set, takes
exactly one keep-alive reference on `p` (and changes nothing else of `p`),
after which `get_predecessor()` returns `p` and a second `set_predecessor`
hits the assertion; `get_predecessor()` with no predecessor set also hits the
assertion. -/
theorem c4_set_get_predecessor (t : RunnableTaskBase) (pid : Nat)
    (p : TaskNode) :
    (t.m_predecessor = none →
      ∃ t' p', t.set_predecessor pid p = some (t', p') ∧
        t' = { t with m_predecessor := some pid } ∧
        p' = { p with ref_base :=
          { m_ref_count := wrap32 (p.ref_base.m_ref_count + 1) } } ∧
        t'.get_predecessor = some pid ∧
        (∀ pid2 (q : TaskNode), t'.set_predecessor pid2 q = none)) ∧
    ((∃ q0, t.m_predecessor = some q0) → t.set_predecessor pid p = none) ∧
    (t.m_predecessor = none → t.get_predecessor = none) := by
  refine ⟨fun h => ?_, fun hq => ?_, fun h => h⟩
  · refine ⟨{ t with m_predecessor := some pid },
      { p with ref_base :=
        { m_ref_count := wrap32 (p.ref_base.m_ref_count + 1) } },
      ?_, rfl, rfl, rfl, fun pid2 q => rfl⟩
    simp [RunnableTaskBase.set_predecessor, h, TaskNode.increment_reference_count,
      ReferenceCountedBase.increment_reference_count]
  · obtain ⟨q0, h⟩ := hq
    simp [RunnableTaskBase.set_predecessor, h]

/-- Witness for C4 on concrete nodes. -/
theorem c4_set_get_predecessor_witness :
    (RunnableTaskBase.mk' 7
      (TaskNode.mk' TaskType.TaskSingle TaskPriority.Regular none 2
        64)).m_predecessor = none ∧
    ∃ t' p', (RunnableTaskBase.mk' 7
        (TaskNode.mk' TaskType.TaskSingle TaskPriority.Regular none 2
          64)).set_predecessor 5
        (TaskNode.mk' TaskType.TaskTeam TaskPriority.Regular none 1 64) =
        some (t', p') ∧
      t' = { RunnableTaskBase.mk' 7
        (TaskNode.mk' TaskType.TaskSingle TaskPriority.Regular none 2 64) with
          m_predecessor := some 5 } ∧
      p' = { TaskNode.mk' TaskType.TaskTeam TaskPriority.Regular none 1 64 with
        ref_base := { m_ref_count := wrap32 (1 + 1) } } ∧
      t'.get_predecessor = some 5 ∧
      (∀ pid2 (q : TaskNode), t'.set_predecessor pid2 q = none) :=
  ⟨rfl, (c4_set_get_predecessor
      (RunnableTaskBase.mk' 7
        (TaskNode.mk' TaskType.TaskSingle TaskPriority.Regular none 2 64)) 5
      (TaskNode.mk' TaskType.TaskTeam TaskPriority.Regular none 1 64)).1 rfl⟩

theorem AggregateTask.steps_eq :
    ∀ (ops : List TaskNodeOp) (a : AggregateTask),
      AggregateTask.steps a ops =
        (TaskNode.steps a.base ops).map (fun b => { a with base := b })
  | [], _ => rfl
  | op :: ops, a => by
    rw [AggregateTask.steps, TaskNode.steps, AggregateTask.step]
    rcases hb : a.base.step op with _ | nb
    · rfl
    · exact AggregateTask.steps_eq ops { a with base := nb }

/-- Counterexample to C7 as stated: an aggregate does not keep Regular
priority under every later operation — the inherited `set_priority` (legal
while the node is not enqueued) changes it to High. -/
theorem c7_aggregate_counterexample :
    (AggregateTask.mk' 3 none 1 64).step
        (TaskNodeOp.setPriority TaskPriority.High) =
      some { AggregateTask.mk' 3 none 1 64 with base :=
        { (AggregateTask.mk' 3 none 1 64).base with
            m_priority := TaskPriority.High.toInt } } ∧
    ((AggregateTask.mk' 3 none 1 64).step
        (TaskNodeOp.setPriority TaskPriority.High)).map
        (fun a => a.base.get_priority) = some TaskPriority.High ∧
    TaskPriority.High ≠ TaskPriority.Regular := by
  refine ⟨by decide, by decide, by decide⟩

/-- C7 (amended): every `AggregateTask` is constructed with kind `Aggregate`
and priority `Regular`, `dependence_count()` returns the
`aggregate_predecessor_count` given at construction and no later operation
changes it; the priority stays `Regular` under every later operation except
an explicit `set_priority`. -/
theorem c7_aggregate_amended (count : Int) (queue_base : Option Nat)
    (initial_reference_count allocation_size : Int) (ops : List TaskNodeOp)
    (a' : AggregateTask)
    (h : AggregateTask.steps
      (AggregateTask.mk' count queue_base initial_reference_count
        allocation_size) ops = some a') :
    (AggregateTask.mk' count queue_base initial_reference_count
      allocation_size).base.m_task_type = TaskType.Aggregate ∧
    (AggregateTask.mk' count queue_base initial_reference_count
      allocation_size).base.get_priority = TaskPriority.Regular ∧
    (AggregateTask.mk' count queue_base initial_reference_count
      allocation_size).dependence_count = count ∧
    a'.dependence_count = count ∧
    ((∀ p, TaskNodeOp.setPriority p ∉ ops) →
      a'.base.get_priority = TaskPriority.Regular) := by
  rw [AggregateTask.steps_eq] at h
  rcases hb : TaskNode.steps
      (AggregateTask.mk' count queue_base initial_reference_count
        allocation_size).base ops with _ | nb <;> rw [hb] at h
  · cases h
  · simp only [Option.map_some', Option.some.injEq] at h
    subst h
    obtain ⟨h1, h2, h3⟩ := TaskNode.steps_frame ops _ nb hb
    refine ⟨rfl, rfl, rfl, rfl, fun hp => ?_⟩
    show TaskPriority.ofInt nb.m_priority = TaskPriority.Regular
    rw [h3 hp]
    rfl

/-- Witness for C7 (amended) on a concrete aggregate and operation list. -/
theorem c7_aggregate_amended_witness :
    AggregateTask.steps (AggregateTask.mk' 3 none 1 64) [TaskNodeOp.incRef] =
      some { AggregateTask.mk' 3 none 1 64 with base :=
        { (AggregateTask.mk' 3 none 1 64).base with
            ref_base := { m_ref_count := 2 } } } ∧
    ({ AggregateTask.mk' 3 none 1 64 with base :=
        { (AggregateTask.mk' 3 none 1 64).base with
            ref_base := { m_ref_count := 2 } } } :
      AggregateTask).dependence_count = 3 :=
  by
    have H := c7_aggregate_amended 3 none 1 64 [TaskNodeOp.incRef]
      { AggregateTask.mk' 3 none 1 64 with base :=
        { (AggregateTask.mk' 3 none 1 64).base with
            ref_base := { m_ref_count := 2 } } }
      (by decide)
    exact ⟨by decide, H.2.2.2.1⟩

/-- C9: `clear_predecessor()` only nulls the predecessor link — the node's
base subobject (hence every reference count) and all other fields are
untouched, and since the former predecessor is not even an argument its
count cannot be decremented; afterwards `has_predecessor()` is `false` and
`set_predecessor` may be called again without asserting. -/
theorem c9_clear_predecessor (t : RunnableTaskBase)
    (_h : t.has_predecessor = true) :
    t.clear_predecessor = { t with m_predecessor := none } ∧
    t.clear_predecessor.has_predecessor = false ∧
    t.clear_predecessor.base = t.base ∧
    t.clear_predecessor.m_apply = t.m_apply ∧
    t.clear_predecessor.m_is_respawning = t.m_is_respawning ∧
    (∀ pid (p : TaskNode), ∃ t' p',
      t.clear_predecessor.set_predecessor pid p = some (t', p')) :=
  ⟨rfl, rfl, rfl, rfl, rfl, fun _pid p =>
    ⟨_, p.increment_reference_count, rfl⟩⟩

/-- Witness for C9 on a node with a predecessor set. -/
theorem c9_clear_predecessor_witness :
    ({ RunnableTaskBase.mk' 7
        (TaskNode.mk' TaskType.TaskSingle TaskPriority.Regular none 2 64) with
          m_predecessor := some 5 } : RunnableTaskBase).has_predecessor = true ∧
    ({ RunnableTaskBase.mk' 7
        (TaskNode.mk' TaskType.TaskSingle TaskPriority.Regular none 2 64) with
          m_predecessor := some 5 } : RunnableTaskBase).clear_predecessor.has_predecessor =
      false :=
  ⟨rfl, (c9_clear_predecessor
    { RunnableTaskBase.mk' 7
        (TaskNode.mk' TaskType.TaskSingle TaskPriority.Regular none 2 64) with
          m_predecessor := some 5 } rfl).2.1⟩
